import Mathlib

/-!
Verification of the computer-use action dispatcher and coordinate scaler
(`computer_use_demo/tools/computer.py`).

The Python module is shallowly embedded:
* Python `int` is `Int`; float arithmetic inside `scale_coordinates` is
  modelled exactly over `ℚ`, with Python's built-in `round`
  (round-half-to-even) modelled by `pyRound`.
* Python strings are Lean `String`s; the handful of string methods the
  module uses (`split`, `strip`, `replace`, `int(...)` parsing) are given
  explicit char-list implementations (`pySplit`, `pyStrip`, `escapeQuotes`,
  `pyToInt`) because they must be executable by the kernel.
* Raised `ToolError`s (and the one possible `ValueError`) become
  `Except ToolErr`; each constructor of `ToolErr` corresponds to exactly one
  `raise` site in the source.
* The side-effecting capabilities (`run`, screenshot capture) are modelled
  by an event trace `List Cap`; the stdout/stderr of a shell command is
  supplied by an oracle `exec : String → String × String`.
-/

/-- Python `text.split(sep)` for a one-character separator.  Mirrors Python:
`"".split('+') = [""]`, separators at the ends produce empty fields. -/
def pySplit (s : String) (sep : Char) : List String :=
  (s.data.splitOn sep).map String.mk

/-- Python `s.strip()`: remove leading and trailing whitespace. -/
def pyStrip (s : String) : String :=
  String.mk (((s.data.dropWhile Char.isWhitespace).reverse.dropWhile
    Char.isWhitespace).reverse)

/-- Python `char.replace('"', '\\"')`: escape every double quote. -/
def escapeQuotes : List Char → List Char
  | [] => []
  | c :: t => if c = '"' then '\\' :: '"' :: escapeQuotes t else c :: escapeQuotes t

/-- Digit accumulator for `pyToInt`. -/
def pyNatOfDigits : List Char → Nat → Option Nat
  | [], acc => some acc
  | c :: t, acc =>
    if c.isDigit then pyNatOfDigits t (acc * 10 + (c.toNat - '0'.toNat))
    else none

/-- Python `int(s)`: optional sign and a non-empty digit string after
stripping whitespace; `none` models the `ValueError` raised otherwise. -/
def pyToInt (s : String) : Option Int :=
  match (pyStrip s).data with
  | [] => none
  | '-' :: t => if t = [] then none else (pyNatOfDigits t 0).map fun n => -(n : Int)
  | '+' :: t => if t = [] then none else (pyNatOfDigits t 0).map fun n => (n : Int)
  | cs => (pyNatOfDigits cs 0).map fun n => (n : Int)

/-- Python's built-in `round`: round half to even (banker's rounding),
taken on the exact rational value. -/
def pyRound (q : ℚ) : ℤ :=
  if q - ⌊q⌋ < 1/2 then ⌊q⌋
  else if 1/2 < q - ⌊q⌋ then ⌊q⌋ + 1
  else if ⌊q⌋ % 2 = 0 then ⌊q⌋ else ⌊q⌋ + 1

/-- `MAC_SCALED_RES_HEIGHT = 662` from the source. -/
def MAC_SCALED_RES_HEIGHT : Int := 662

/-- `MAC_SCALED_RES_WIDTH = 1024` from the source. -/
def MAC_SCALED_RES_WIDTH : Int := 1024

/-- `XGA_RES_HEIGHT = 768` from the source. -/
def XGA_RES_HEIGHT : Int := 768

/-- `XGA_RES_WIDTH = 1024` from the source. -/
def XGA_RES_WIDTH : Int := 1024

/-- `class ScalingSource(StrEnum)`. -/
inductive ScalingSource where
  | COMPUTER
  | API
deriving DecidableEq

/-- One constructor per `raise` site of the module (`ToolError`s, plus the
`ValueError` that `int(...)` can raise in the cursor-position branch). -/
inductive ToolErr where
  | coordinateRequired (action : String)
  | textNotAccepted (action : String)
  | coordinateNotPair
  | coordinateNotNonnegInts
  | textRequired (action : String)
  | coordinateNotAccepted (action : String)
  | textNotString
  | outOfBounds (x y : Int)
  | cannotExecuteKey (text : String)
  | valueError
  | invalidAction (action : String)
deriving DecidableEq

/-- The errors the spec classifies as `InvalidArgument` (argument-shape
validation failures), as opposed to bounds / unsupported / backend errors. -/
def ToolErr.isInvalidArgument : ToolErr → Bool
  | .coordinateRequired _ => true
  | .textNotAccepted _ => true
  | .coordinateNotPair => true
  | .coordinateNotNonnegInts => true
  | .textRequired _ => true
  | .coordinateNotAccepted _ => true
  | .textNotString => true
  | _ => false

/-- The state of `ComputerTool` relevant to scaling: the real monitor size
discovered in `__init__`. -/
structure ComputerTool where
  width : Int
  height : Int
deriving DecidableEq

/-- `ComputerTool.scale_coordinates`.  `screen_to_scaled_x/y` are the exact
rational values of the Python float ratios; the `API` branch raises
`ToolError` when the point exceeds the scaled-capture bounds. -/
def ComputerTool.scale_coordinates (self : ComputerTool) (source : ScalingSource)
    (x y : Int) : Except ToolErr (Int × Int) :=
  let screen_to_scaled_x : ℚ := (MAC_SCALED_RES_WIDTH : ℚ) / (self.width : ℚ)
  let screen_to_scaled_y : ℚ := (MAC_SCALED_RES_HEIGHT : ℚ) / (self.height : ℚ)
  match source with
  | ScalingSource.API =>
    if MAC_SCALED_RES_WIDTH < x ∨ MAC_SCALED_RES_HEIGHT < y then
      Except.error (ToolErr.outOfBounds x y)
    else
      Except.ok (pyRound ((x : ℚ) / screen_to_scaled_x),
                 pyRound ((y : ℚ) / screen_to_scaled_y))
  | ScalingSource.COMPUTER =>
    Except.ok (pyRound ((x : ℚ) * screen_to_scaled_x),
               pyRound ((y : ℚ) * screen_to_scaled_y))

/-- Rounding never moves a value by more than half a unit, in either tie
direction of `pyRound`. -/
theorem pyRound_sub_abs_le (q : ℚ) : |(pyRound q : ℚ) - q| ≤ 1/2 := by
  have h0 : (⌊q⌋ : ℚ) ≤ q := Int.floor_le q
  have h1 : q < ⌊q⌋ + 1 := Int.lt_floor_add_one q
  unfold pyRound
  split_ifs with hc1 hc2 hc3
  · rw [abs_le]
    constructor <;> linarith
  · push_cast
    rw [abs_le]
    constructor <;> linarith
  · have heq : q - ⌊q⌋ = 1/2 := le_antisymm (not_lt.mp hc2) (not_lt.mp hc1)
    rw [abs_le]
    constructor <;> linarith
  · have heq : q - ⌊q⌋ = 1/2 := le_antisymm (not_lt.mp hc2) (not_lt.mp hc1)
    push_cast
    rw [abs_le]
    constructor <;> linarith

/-- One axis of the round trip: scaling up by `w / cap` (dividing by the
ratio `cap / w`), rounding, scaling back down and rounding again moves an
integer by at most one, provided `0 < cap ≤ w`. -/
theorem roundtrip_axis (cap w : ℚ) (x : ℤ) (hcap : 0 < cap) (hcw : cap ≤ w) :
    |(pyRound ((pyRound ((x : ℚ) / (cap / w)) : ℚ) * (cap / w)) : ℚ) - (x : ℚ)| ≤ 1 := by
  have hw : 0 < w := lt_of_lt_of_le hcap hcw
  have hs0 : 0 < cap / w := div_pos hcap hw
  have hs1 : cap / w ≤ 1 := (div_le_one hw).mpr hcw
  have hne : cap / w ≠ 0 := ne_of_gt hs0
  set a : ℤ := pyRound ((x : ℚ) / (cap / w)) with ha
  have h1 : |(a : ℚ) - (x : ℚ) / (cap / w)| ≤ 1/2 := pyRound_sub_abs_le _
  have h2 : |(pyRound ((a : ℚ) * (cap / w)) : ℚ) - (a : ℚ) * (cap / w)| ≤ 1/2 :=
    pyRound_sub_abs_le _
  have key : (a : ℚ) * (cap / w) - (x : ℚ) =
      ((a : ℚ) - (x : ℚ) / (cap / w)) * (cap / w) := by
    field_simp
    ring
  have h3 : |(a : ℚ) * (cap / w) - (x : ℚ)| ≤ 1/2 := by
    rw [key, abs_mul, abs_of_pos hs0]
    calc |(a : ℚ) - (x : ℚ) / (cap / w)| * (cap / w)
        ≤ (1/2) * 1 := mul_le_mul h1 hs1 (le_of_lt hs0) (by norm_num)
      _ = 1/2 := by norm_num
  calc |(pyRound ((a : ℚ) * (cap / w)) : ℚ) - (x : ℚ)|
      ≤ |(pyRound ((a : ℚ) * (cap / w)) : ℚ) - (a : ℚ) * (cap / w)| +
        |(a : ℚ) * (cap / w) - (x : ℚ)| := abs_sub_le _ _ _
    _ ≤ 1/2 + 1/2 := add_le_add h2 h3
    _ = 1 := by norm_num

/-- `XDOTOOL_TO_APPLESCRIPT_KEYCODES`: xdotool-style key names to macOS
key codes, as an association list in source order. -/
def XDOTOOL_TO_APPLESCRIPT_KEYCODES : List (String × Int) := [
  ("Left", 123), ("Right", 124), ("Down", 125), ("Up", 126),
  ("Return", 36), ("Enter", 36), ("Esc", 53), ("Escape", 53),
  ("Tab", 48), ("BackSpace", 51), ("Delete", 117),
  ("Home", 115), ("End", 119), ("Page_Up", 116), ("Prior", 116),
  ("Page_Down", 121), ("Next", 121),
  ("F1", 122), ("F2", 120), ("F3", 99), ("F4", 118),
  ("F5", 96), ("F6", 97), ("F7", 98), ("F8", 100),
  ("F9", 101), ("F10", 109), ("F11", 103), ("F12", 111)]

/-- `XDOTOOL_TO_APPLESCRIPT_MODIFIERS`: xdotool-style modifier names to
AppleScript modifier phrases. -/
def XDOTOOL_TO_APPLESCRIPT_MODIFIERS : List (String × String) := [
  ("ctrl", "control down"), ("control", "control down"),
  ("alt", "option down"), ("shift", "shift down"),
  ("super", "command down"), ("cmd", "command down"),
  ("meta", "command down")]

/-- The local `applescript_mods_map` literal that appears (identically) inside
both `press_key_applescript` and `press_character_applescript`.  Note its keys
are the *untranslated* names `cmd`/`ctrl`/`alt`/`shift`. -/
def applescript_mods_map : List (String × String) := [
  ("cmd", "command down"), ("ctrl", "control down"),
  ("alt", "option down"), ("shift", "shift down")]

/-- `press_key_applescript(keycode, modifiers)`: AppleScript snippet pressing a
key code, with the `using` clause built from the modifiers that survive the
`applescript_mods_map` filter. -/
def press_key_applescript (keycode : Int) (modifiers : List String) : String :=
  let applescript_mods := modifiers.filterMap fun m => applescript_mods_map.lookup m
  let mods_str : String :=
    if applescript_mods = [] then ""
    else " using \x7b" ++ String.intercalate ", " applescript_mods ++ "\x7d"
  "tell application \"System Events\" to key code " ++ toString keycode ++ mods_str

/-- `press_character_applescript(char, modifiers)`: AppleScript snippet typing a
character via `keystroke`, double quotes escaped, modifiers filtered the same
way as in `press_key_applescript`. -/
def press_character_applescript (char : String) (modifiers : List String) : String :=
  let applescript_mods := modifiers.filterMap fun m => applescript_mods_map.lookup m
  let mods_str : String :=
    if applescript_mods = [] then ""
    else " using \x7b" ++ String.intercalate ", " applescript_mods ++ "\x7d"
  let safe_char := String.mk (escapeQuotes char.data)
  "tell application \"System Events\" to keystroke \"" ++ safe_char ++ "\"" ++ mods_str

/-- The `action == "key"` branch of `ComputerTool.__call__` (lines 203-224):
split on `+`, last token is the key, translate the remaining tokens through
`XDOTOOL_TO_APPLESCRIPT_MODIFIERS` (unknown ones are dropped, with only a log
message), then build the AppleScript command with a key code when the key is
known and a literal `keystroke` otherwise. -/
def buildKeyCommand (text : String) : String :=
  let parts := pySplit text '+'
  let key := parts.getLastD ""
  let raw_mods := parts.dropLast
  let applescript_mods :=
    raw_mods.filterMap fun m => XDOTOOL_TO_APPLESCRIPT_MODIFIERS.lookup m
  match XDOTOOL_TO_APPLESCRIPT_KEYCODES.lookup key with
  | some keycode => press_key_applescript keycode applescript_mods
  | none => press_character_applescript key applescript_mods

/-- A Python value passed as a coordinate component: an `int` or anything
else (the `isinstance(i, int)` check distinguishes exactly these). -/
inductive PyVal where
  | vint (n : Int)
  | vother
deriving DecidableEq

/-- `isinstance(i, int) and i >= 0` for one component. -/
def PyVal.isNonnegInt : PyVal → Bool
  | .vint n => decide (0 ≤ n)
  | .vother => false

/-- The integer carried by a validated component (`coordinate[i]`). -/
def PyVal.intVal : PyVal → Int
  | .vint n => n
  | .vother => 0

/-- A Python value passed as `coordinate`: a list of values, or some non-list
object (the `isinstance(coordinate, list)` check distinguishes exactly
these; note a Python *tuple* falls in the non-list case). -/
inductive PyCoord where
  | plist (elems : List PyVal)
  | pnonlist
deriving DecidableEq

/-- A Python value passed as `text`: a `str`, or some non-string object
(the `isinstance(text, str)` check distinguishes exactly these). -/
inductive PyText where
  | pstr (s : String)
  | pnonstr
deriving DecidableEq

/-- One invocation of an automation capability: running a shell command
(`run`) or capturing the screen (`capture`, the abstraction of the
`screenshot` coroutine's `screencapture`/`magick`/base64 pipeline). -/
inductive Cap where
  | run (command : String)
  | capture
deriving DecidableEq

/-- `ToolResult`: output text, error text, and whether an image payload is
attached (the base64 content itself is outside the model). -/
structure ToolResult where
  output : Option String
  error : Option String
  base64_image : Bool
deriving DecidableEq

/-- `ComputerTool.shell(command, take_screenshot)`: run the command through the
`exec` oracle (stdout, stderr) and, when `take_screenshot` is true, capture a
screenshot after the settle delay and attach it to the result. -/
def ComputerTool.shell (exec : String → String × String) (command : String)
    (take_screenshot : Bool) : List Cap × ToolResult :=
  if take_screenshot then
    ([Cap.run command, Cap.capture],
     { output := some (exec command).1, error := some (exec command).2,
       base64_image := true })
  else
    ([Cap.run command],
     { output := some (exec command).1, error := some (exec command).2,
       base64_image := false })

/-- `map(int, output.split(","))` unpacked into exactly two integers; `none`
models the `ValueError` raised when a part is not an integer or the count is
not two. -/
def pyParsePair (s : String) : Option (Int × Int) :=
  match (pySplit s ',').map pyToInt with
  | [some a, some b] => some (a, b)
  | _ => none

/-- `ComputerTool.__call__`: the action dispatcher.  Returns the trace of
capability invocations together with the result (or raised error).  `exec`
supplies stdout/stderr for each shell command. -/
def ComputerTool.call (self : ComputerTool) (exec : String → String × String)
    (action : String) (text : Option PyText) (coordinate : Option PyCoord) :
    List Cap × Except ToolErr ToolResult :=
  if action = "mouse_move" ∨ action = "left_click_drag" then
    match coordinate with
    | none => ([], Except.error (ToolErr.coordinateRequired action))
    | some c =>
      if text.isSome then ([], Except.error (ToolErr.textNotAccepted action))
      else
        match c with
        | PyCoord.pnonlist => ([], Except.error ToolErr.coordinateNotPair)
        | PyCoord.plist elems =>
          if elems.length ≠ 2 then ([], Except.error ToolErr.coordinateNotPair)
          else if ¬ (elems.all PyVal.isNonnegInt) then
            ([], Except.error ToolErr.coordinateNotNonnegInts)
          else
            match self.scale_coordinates ScalingSource.API
                (elems.getD 0 PyVal.vother).intVal (elems.getD 1 PyVal.vother).intVal with
            | Except.error e => ([], Except.error e)
            | Except.ok (x, y) =>
              if action = "mouse_move" then
                let r := ComputerTool.shell exec
                  ("cliclick m:" ++ toString x ++ "," ++ toString y) true
                (r.1, Except.ok r.2)
              else
                let r1 := ComputerTool.shell exec "cliclick dd:." true
                let r2 := ComputerTool.shell exec
                  ("cliclick m:" ++ toString x ++ "," ++ toString y) true
                let r3 := ComputerTool.shell exec "cliclick du:." true
                (r1.1 ++ r2.1 ++ r3.1, Except.ok r3.2)
  else if action = "key" ∨ action = "type" then
    match text with
    | none => ([], Except.error (ToolErr.textRequired action))
    | some t =>
      if coordinate.isSome then ([], Except.error (ToolErr.coordinateNotAccepted action))
      else
        match t with
        | PyText.pnonstr => ([], Except.error ToolErr.textNotString)
        | PyText.pstr s =>
          if action = "key" then
            let applescript_cmd := buildKeyCommand s
            if applescript_cmd = "" then
              ([], Except.error (ToolErr.cannotExecuteKey s))
            else
              let r := ComputerTool.shell exec
                ("osascript -e \x27" ++ applescript_cmd ++ "\x27") true
              (r.1, Except.ok r.2)
          else
            let r := ComputerTool.shell exec ("cliclick t:" ++ s) false
            (r.1 ++ [Cap.capture],
             Except.ok { output := r.2.output, error := r.2.error,
                         base64_image := true })
  else if action = "left_click" ∨ action = "right_click" ∨ action = "double_click" ∨
      action = "middle_click" ∨ action = "screenshot" ∨ action = "cursor_position" then
    if text.isSome then ([], Except.error (ToolErr.textNotAccepted action))
    else if coordinate.isSome then
      ([], Except.error (ToolErr.coordinateNotAccepted action))
    else if action = "screenshot" then
      ([Cap.capture], Except.ok { output := none, error := none, base64_image := true })
    else if action = "cursor_position" then
      let r := ComputerTool.shell exec "cliclick p:" false
      let stripped := pyStrip ((r.2.output).getD "")
      match pyParsePair stripped with
      | none => (r.1, Except.error ToolErr.valueError)
      | some (px, py) =>
        match self.scale_coordinates ScalingSource.COMPUTER px py with
        | Except.error e => (r.1, Except.error e)
        | Except.ok (x, y) =>
          (r.1, Except.ok { r.2 with
            output := some ("X=" ++ toString x ++ ",Y=" ++ toString y) })
    else if action = "middle_click" then
      ([], Except.ok { output := none,
                       error := some "Middle click is not supported currently.",
                       base64_image := false })
    else
      let click_arg := if action = "left_click" then "c:."
        else if action = "right_click" then "rc:." else "dc:."
      let r := ComputerTool.shell exec ("cliclick " ++ click_arg) true
      (r.1, Except.ok r.2)
  else ([], Except.error (ToolErr.invalidAction action))

/-- The reference host of the spec scenarios: real display 1728×1117. -/
def demoTool : ComputerTool := ComputerTool.mk 1728 1117

/-- A shell oracle whose `cliclick p:` reports the pointer at (864, 648);
stderr is empty everywhere. -/
def cursorExec : String → String × String := fun _ => ("864,648", "")

/-- A shell oracle returning empty stdout and stderr for every command. -/
def silentExec : String → String × String := fun _ => ("", "")

/-- C1: for every point within Capture bounds (x ≤ 1024, y ≤ 662, both
non-negative) and any real resolution at least the Capture resolution,
scaling API→screen and then screen→API returns a point within ±1 of the
original in each coordinate. -/
theorem scale_roundtrip_within_one (self : ComputerTool) (x y : Int)
    (hx0 : 0 ≤ x) (hy0 : 0 ≤ y)
    (hx : x ≤ MAC_SCALED_RES_WIDTH) (hy : y ≤ MAC_SCALED_RES_HEIGHT)
    (hw : MAC_SCALED_RES_WIDTH ≤ self.width) (hh : MAC_SCALED_RES_HEIGHT ≤ self.height) :
    ∃ sx sy rx ry : Int,
      self.scale_coordinates ScalingSource.API x y = Except.ok (sx, sy) ∧
      self.scale_coordinates ScalingSource.COMPUTER sx sy = Except.ok (rx, ry) ∧
      |rx - x| ≤ 1 ∧ |ry - y| ≤ 1 := by
  have hcond : ¬ (MAC_SCALED_RES_WIDTH < x ∨ MAC_SCALED_RES_HEIGHT < y) := by
    rw [not_or]
    exact ⟨not_lt.mpr hx, not_lt.mpr hy⟩
  refine ⟨pyRound ((x : ℚ) / ((MAC_SCALED_RES_WIDTH : ℚ) / (self.width : ℚ))),
    pyRound ((y : ℚ) / ((MAC_SCALED_RES_HEIGHT : ℚ) / (self.height : ℚ))),
    pyRound ((pyRound ((x : ℚ) / ((MAC_SCALED_RES_WIDTH : ℚ) / (self.width : ℚ))) : ℚ) *
      ((MAC_SCALED_RES_WIDTH : ℚ) / (self.width : ℚ))),
    pyRound ((pyRound ((y : ℚ) / ((MAC_SCALED_RES_HEIGHT : ℚ) / (self.height : ℚ))) : ℚ) *
      ((MAC_SCALED_RES_HEIGHT : ℚ) / (self.height : ℚ))),
    ?_, ?_, ?_, ?_⟩
  · simp [ComputerTool.scale_coordinates, hcond]
  · simp [ComputerTool.scale_coordinates]
  · have h := roundtrip_axis (MAC_SCALED_RES_WIDTH : ℚ) (self.width : ℚ) x
      (by norm_num [MAC_SCALED_RES_WIDTH]) (by exact_mod_cast hw)
    exact_mod_cast h
  · have h := roundtrip_axis (MAC_SCALED_RES_HEIGHT : ℚ) (self.height : ℚ) y
      (by norm_num [MAC_SCALED_RES_HEIGHT]) (by exact_mod_cast hh)
    exact_mod_cast h

/-- Witness for C1: the hypotheses hold at (512, 384) on the 1728×1117 host. -/
theorem scale_roundtrip_within_one_witness :
    ((0 : Int) ≤ 512 ∧ (0 : Int) ≤ 384 ∧
     (512 : Int) ≤ MAC_SCALED_RES_WIDTH ∧ (384 : Int) ≤ MAC_SCALED_RES_HEIGHT ∧
     MAC_SCALED_RES_WIDTH ≤ demoTool.width ∧ MAC_SCALED_RES_HEIGHT ≤ demoTool.height) ∧
    ∃ sx sy rx ry : Int,
      demoTool.scale_coordinates ScalingSource.API 512 384 = Except.ok (sx, sy) ∧
      demoTool.scale_coordinates ScalingSource.COMPUTER sx sy = Except.ok (rx, ry) ∧
      |rx - 512| ≤ 1 ∧ |ry - 384| ≤ 1 :=
  ⟨⟨by decide, by decide, by decide, by decide, by decide, by decide⟩,
   scale_roundtrip_within_one demoTool 512 384 (by decide) (by decide)
     (by decide) (by decide) (by decide) (by decide)⟩

/-- C2: for non-negative input, the API→screen direction fails (with the
out-of-bounds error) exactly when x > 1024 or y > 662, and succeeds on every
point with x ≤ 1024 and y ≤ 662. -/
theorem scale_api_out_of_bounds_iff (self : ComputerTool) (x y : Int)
    (hx : 0 ≤ x) (hy : 0 ≤ y) :
    (x ≤ MAC_SCALED_RES_WIDTH ∧ y ≤ MAC_SCALED_RES_HEIGHT →
      ∃ p, self.scale_coordinates ScalingSource.API x y = Except.ok p) ∧
    (MAC_SCALED_RES_WIDTH < x ∨ MAC_SCALED_RES_HEIGHT < y →
      self.scale_coordinates ScalingSource.API x y =
        Except.error (ToolErr.outOfBounds x y)) := by
  constructor
  · intro h
    have hcond : ¬ (MAC_SCALED_RES_WIDTH < x ∨ MAC_SCALED_RES_HEIGHT < y) := by
      rw [not_or]
      exact ⟨not_lt.mpr h.1, not_lt.mpr h.2⟩
    refine ⟨(pyRound ((x : ℚ) / ((MAC_SCALED_RES_WIDTH : ℚ) / (self.width : ℚ))),
      pyRound ((y : ℚ) / ((MAC_SCALED_RES_HEIGHT : ℚ) / (self.height : ℚ)))), ?_⟩
    simp [ComputerTool.scale_coordinates, hcond]
  · intro h
    simp [ComputerTool.scale_coordinates, h]

/-- Witness for C2: the characterization applied at (512, 384). -/
theorem scale_api_out_of_bounds_iff_witness :
    ((0 : Int) ≤ 512 ∧ (0 : Int) ≤ 384) ∧
    (((512 : Int) ≤ MAC_SCALED_RES_WIDTH ∧ (384 : Int) ≤ MAC_SCALED_RES_HEIGHT →
      ∃ p, demoTool.scale_coordinates ScalingSource.API 512 384 = Except.ok p) ∧
    (MAC_SCALED_RES_WIDTH < (512 : Int) ∨ MAC_SCALED_RES_HEIGHT < (384 : Int) →
      demoTool.scale_coordinates ScalingSource.API 512 384 =
        Except.error (ToolErr.outOfBounds 512 384))) :=
  ⟨⟨by decide, by decide⟩,
   scale_api_out_of_bounds_iff demoTool 512 384 (by decide) (by decide)⟩

/-- On the 1728×1117 host, the API point (512, 384) scales to (864, 648). -/
theorem demo_scale_api_512_384 :
    demoTool.scale_coordinates ScalingSource.API 512 384 = Except.ok (864, 648) := by
  simp only [demoTool, ComputerTool.scale_coordinates, MAC_SCALED_RES_WIDTH,
    MAC_SCALED_RES_HEIGHT]
  norm_num [pyRound]

/-- On the 1728×1117 host, the screen point (864, 648) scales back to
(512, 384). -/
theorem demo_scale_computer_864_648 :
    demoTool.scale_coordinates ScalingSource.COMPUTER 864 648 = Except.ok (512, 384) := by
  simp only [demoTool, ComputerTool.scale_coordinates, MAC_SCALED_RES_WIDTH,
    MAC_SCALED_RES_HEIGHT]
  norm_num [pyRound]

/-- C4: with real display 1728×1117, API (512, 384) scales to exactly
(864, 648), screen (864, 648) scales back to exactly (512, 384), and the
`cursor_position` action over a backend reporting "864,648" returns the
formatted text "X=512,Y=384" (with no screenshot taken). -/
theorem end_to_end_scenario :
    demoTool.scale_coordinates ScalingSource.API 512 384 = Except.ok (864, 648) ∧
    demoTool.scale_coordinates ScalingSource.COMPUTER 864 648 = Except.ok (512, 384) ∧
    demoTool.call cursorExec "cursor_position" none none =
      ([Cap.run "cliclick p:"],
       Except.ok (ToolResult.mk (some "X=512,Y=384") (some "") false)) := by
  refine ⟨demo_scale_api_512_384, demo_scale_computer_864_648, ?_⟩
  have hparse : pyParsePair (pyStrip "864,648") = some (864, 648) := by decide
  have hfmt : ("X=" ++ toString (512 : Int) ++ ",Y=" ++ toString (384 : Int)) =
      "X=512,Y=384" := by decide
  simp [ComputerTool.call, ComputerTool.shell, cursorExec, hparse,
    demo_scale_computer_864_648, hfmt]

/-- C7: `middle_click` with no text and no coordinate always returns a result
whose error text says the operation is unsupported, and invokes no capability
at all (empty trace), on every host and backend. -/
theorem middle_click_unsupported (self : ComputerTool) (exec : String → String × String) :
    self.call exec "middle_click" none none =
      ([], Except.ok (ToolResult.mk none
        (some "Middle click is not supported currently.") false)) := by
  simp [ComputerTool.call]

/-- C8: splitting on `+` makes the last token the key and the rest modifiers:
"ctrl+alt+Delete" parses to modifiers [ctrl, alt] with key Delete, "a" parses
to no modifiers with key a, and dispatching the `key` action on "a" issues a
single shell key press (one AppleScript command with no modifier phrase)
followed by the screenshot — no separate modifier-down/up invocations. -/
theorem key_parsing_single_press (self : ComputerTool) (exec : String → String × String) :
    (pySplit "ctrl+alt+Delete" '+').dropLast = ["ctrl", "alt"] ∧
    (pySplit "ctrl+alt+Delete" '+').getLastD "" = "Delete" ∧
    (pySplit "a" '+').dropLast = [] ∧
    (pySplit "a" '+').getLastD "" = "a" ∧
    (self.call exec "key" (some (PyText.pstr "a")) none).1 =
      [Cap.run "osascript -e \x27tell application \x22System Events\x22 to keystroke \x22a\x22\x27",
       Cap.capture] := by
  have hcmd : buildKeyCommand "a" =
      "tell application \x22System Events\x22 to keystroke \x22a\x22" := by decide
  refine ⟨by decide, by decide, by decide, by decide, ?_⟩
  simp [ComputerTool.call, ComputerTool.shell, hcmd]

/-- A successful association-list lookup returns one of the stored values. -/
theorem lookup_value_mem {α β : Type} [BEq α] (l : List (α × β)) (a : α) (b : β)
    (h : l.lookup a = some b) : b ∈ l.map Prod.snd := by
  induction l with
  | nil => simp [List.lookup] at h
  | cons hd tl ih =>
    rw [List.lookup] at h
    cases hbeq : a == hd.1 with
    | true =>
      rw [hbeq] at h
      simp at h
      simp [h]
    | false =>
      rw [hbeq] at h
      simp at h
      simp [ih h]

/-- Every value of `XDOTOOL_TO_APPLESCRIPT_MODIFIERS` (an AppleScript phrase
such as "control down") is missing from `applescript_mods_map`, whose keys are
the untranslated names `cmd`/`ctrl`/`alt`/`shift`. -/
theorem translated_mod_not_in_map (m v : String)
    (h : XDOTOOL_TO_APPLESCRIPT_MODIFIERS.lookup m = some v) :
    applescript_mods_map.lookup v = none := by
  have hv := lookup_value_mem _ _ _ h
  simp [XDOTOOL_TO_APPLESCRIPT_MODIFIERS] at hv
  rcases hv with h' | h' | h' | h' <;> subst h' <;> decide

/-- `press_key_applescript` ignores modifiers that its internal map does not
recognize: if none are recognized, the command is the zero-modifier one. -/
theorem press_key_applescript_drops (keycode : Int) (mods : List String)
    (h : ∀ v ∈ mods, applescript_mods_map.lookup v = none) :
    press_key_applescript keycode mods = press_key_applescript keycode [] := by
  unfold press_key_applescript
  have hnil : (mods.filterMap fun m => applescript_mods_map.lookup m) = [] :=
    List.filterMap_eq_nil_iff.mpr h
  simp [hnil]

/-- `press_character_applescript` ignores modifiers that its internal map does
not recognize: if none are recognized, the command is the zero-modifier one. -/
theorem press_character_applescript_drops (char : String) (mods : List String)
    (h : ∀ v ∈ mods, applescript_mods_map.lookup v = none) :
    press_character_applescript char mods = press_character_applescript char [] := by
  unfold press_character_applescript
  have hnil : (mods.filterMap fun m => applescript_mods_map.lookup m) = [] :=
    List.filterMap_eq_nil_iff.mpr h
  simp [hnil]

/-- The key command built with zero modifiers (no `using` clause): a key code
press or a literal keystroke of the terminal key alone. -/
def noModsKeyCommand (key : String) : String :=
  match XDOTOOL_TO_APPLESCRIPT_KEYCODES.lookup key with
  | some keycode => press_key_applescript keycode []
  | none => press_character_applescript key []

/-- C3: for every `key` text whose tokens before the terminal key are all
recognized modifiers, the AppleScript command the dispatcher builds is exactly
the zero-modifier command for the terminal key: the dispatcher first translates
the modifiers into AppleScript phrases, and the press helpers then filter that
list against a map keyed on the untranslated names, which matches nothing, so
no `using` clause is ever emitted. -/
theorem key_modifiers_always_dropped (s : String)
    (hne : (pySplit s '+').dropLast ≠ [])
    (hall : ∀ m ∈ (pySplit s '+').dropLast,
      (XDOTOOL_TO_APPLESCRIPT_MODIFIERS.lookup m).isSome) :
    buildKeyCommand s = noModsKeyCommand ((pySplit s '+').getLastD "") := by
  unfold buildKeyCommand noModsKeyCommand
  have hdrop : ∀ v ∈ ((pySplit s '+').dropLast.filterMap
      fun m => XDOTOOL_TO_APPLESCRIPT_MODIFIERS.lookup m),
      applescript_mods_map.lookup v = none := by
    intro v hv
    rcases List.mem_filterMap.mp hv with ⟨m, _, hm⟩
    exact translated_mod_not_in_map m v hm
  cases hk : XDOTOOL_TO_APPLESCRIPT_KEYCODES.lookup ((pySplit s '+').getLastD "") with
  | some keycode =>
    simp only [hk]
    exact press_key_applescript_drops keycode _ hdrop
  | none =>
    simp only [hk]
    exact press_character_applescript_drops _ _ hdrop

/-- Witness for C3: "ctrl+a" has the recognized modifier ctrl, and its command
is the plain keystroke of a. -/
theorem key_modifiers_always_dropped_witness :
    ((pySplit "ctrl+a" '+').dropLast ≠ [] ∧
     ∀ m ∈ (pySplit "ctrl+a" '+').dropLast,
       (XDOTOOL_TO_APPLESCRIPT_MODIFIERS.lookup m).isSome) ∧
    buildKeyCommand "ctrl+a" = noModsKeyCommand ((pySplit "ctrl+a" '+').getLastD "") :=
  ⟨⟨by decide, by decide⟩,
   key_modifiers_always_dropped "ctrl+a" (by decide) (by decide)⟩

/-- Counterexample to C9: modifier-name translation is not case-insensitive.
"Ctrl" fails to translate (and is therefore dropped) while "ctrl" translates
to "control down" — they do not map to the same backend token. -/
theorem modifier_lookup_case_sensitive :
    XDOTOOL_TO_APPLESCRIPT_MODIFIERS.lookup "Ctrl" = none ∧
    XDOTOOL_TO_APPLESCRIPT_MODIFIERS.lookup "ctrl" = some "control down" ∧
    (["Ctrl"].filterMap fun m => XDOTOOL_TO_APPLESCRIPT_MODIFIERS.lookup m) = [] ∧
    (["ctrl"].filterMap fun m => XDOTOOL_TO_APPLESCRIPT_MODIFIERS.lookup m) =
      ["control down"] := by
  decide

/-- C9 amended: both lookups are case-sensitive.  Key names translate
case-sensitively ("Delete" is known, "delete" is not); modifier names are also
case-sensitive ("ctrl" translates, "Ctrl" does not); an unknown modifier name
is dropped (only logged) without failing the action, which still builds a
command; an unknown key name falls back to being typed as a literal
`keystroke` character instead of a named key code. -/
theorem translator_lookup_behavior :
    XDOTOOL_TO_APPLESCRIPT_MODIFIERS.lookup "ctrl" = some "control down" ∧
    XDOTOOL_TO_APPLESCRIPT_MODIFIERS.lookup "Ctrl" = none ∧
    XDOTOOL_TO_APPLESCRIPT_KEYCODES.lookup "Delete" = some 117 ∧
    XDOTOOL_TO_APPLESCRIPT_KEYCODES.lookup "delete" = none ∧
    (["badmod"].filterMap fun m => XDOTOOL_TO_APPLESCRIPT_MODIFIERS.lookup m) = [] ∧
    buildKeyCommand "badmod+Delete" = press_key_applescript 117 [] ∧
    buildKeyCommand "badmod+Delete" ≠ "" ∧
    XDOTOOL_TO_APPLESCRIPT_KEYCODES.lookup "a" = none ∧
    buildKeyCommand "a" = press_character_applescript "a" [] := by
  decide

/-- `press_key_applescript` never returns the empty string. -/
theorem press_key_applescript_ne_empty (keycode : Int) (mods : List String) :
    press_key_applescript keycode mods ≠ "" := by
  unfold press_key_applescript
  intro h
  have hlen := congrArg String.length h
  simp only [String.length_append] at hlen
  have hpos : 0 < ("tell application \x22System Events\x22 to key code " : String).length := by
    decide
  have h0 : ("" : String).length = 0 := rfl
  rw [h0] at hlen
  omega

/-- `press_character_applescript` never returns the empty string. -/
theorem press_character_applescript_ne_empty (char : String) (mods : List String) :
    press_character_applescript char mods ≠ "" := by
  unfold press_character_applescript
  intro h
  have hlen := congrArg String.length h
  simp only [String.length_append] at hlen
  have hpos : 0 < ("tell application \x22System Events\x22 to keystroke \x22" : String).length := by
    decide
  have h0 : ("" : String).length = 0 := rfl
  rw [h0] at hlen
  omega

/-- The `key` branch always builds a non-empty command, so its emptiness check
never fires. -/
theorem buildKeyCommand_ne_empty (s : String) : buildKeyCommand s ≠ "" := by
  unfold buildKeyCommand
  cases hk : XDOTOOL_TO_APPLESCRIPT_KEYCODES.lookup ((pySplit s '+').getLastD "") with
  | some keycode =>
    simp only [hk]
    exact press_key_applescript_ne_empty keycode _
  | none =>
    simp only [hk]
    exact press_character_applescript_ne_empty _ _

/-- Counterexample to C6: empty text is accepted, not rejected.  A `type`
action with text "" passes validation and dispatches the shell command
`cliclick t:` (and a screenshot) instead of failing with InvalidArgument. -/
theorem empty_text_accepted :
    demoTool.call silentExec "type" (some (PyText.pstr "")) none =
      ([Cap.run "cliclick t:", Cap.capture],
       Except.ok (ToolResult.mk (some "") (some "") true)) := by
  have happ : ("cliclick t:" ++ "" : String) = "cliclick t:" := by decide
  simp [ComputerTool.call, ComputerTool.shell, silentExec, happ]

/-- C6 amended: `key` and `type` require text that is present and
string-typed, and no coordinate: missing text, a present coordinate, or
non-string text each fail with the corresponding InvalidArgument error (with
no capability invoked); any string text supplied alone — including the empty
string — is accepted and dispatched. -/
theorem key_type_validation (self : ComputerTool) (exec : String → String × String)
    (action : String) (text : Option PyText) (coordinate : Option PyCoord)
    (ha : action = "key" ∨ action = "type") :
    (text = none →
      self.call exec action text coordinate =
        ([], Except.error (ToolErr.textRequired action))) ∧
    (∀ t, text = some t → coordinate.isSome →
      self.call exec action text coordinate =
        ([], Except.error (ToolErr.coordinateNotAccepted action))) ∧
    (text = some PyText.pnonstr → coordinate = none →
      self.call exec action text coordinate =
        ([], Except.error ToolErr.textNotString)) ∧
    (∀ s, text = some (PyText.pstr s) → coordinate = none →
      ∃ r, (self.call exec action text coordinate).2 = Except.ok r) := by
  have hno1 : ¬ (action = "mouse_move" ∨ action = "left_click_drag") := by
    rcases ha with ha | ha <;> subst ha <;> decide
  have hif : action = "key" ∨ action = "type" := ha
  refine ⟨?_, ?_, ?_, ?_⟩
  · intro h
    subst h
    simp [ComputerTool.call, hno1, hif]
  · intro t ht hc
    subst ht
    rcases coordinate with _ | c
    · simp at hc
    · simp [ComputerTool.call, hno1, hif]
  · intro ht hc
    subst ht
    subst hc
    simp [ComputerTool.call, hno1, hif]
  · intro s ht hc
    subst ht
    subst hc
    rcases ha with ha | ha <;> subst ha
    · simp [ComputerTool.call, ComputerTool.shell, buildKeyCommand_ne_empty s]
    · simp [ComputerTool.call, ComputerTool.shell]

/-- Witness for C6 amended: the characterization applied to the `key` action
with no arguments at all (text missing). -/
theorem key_type_validation_witness :
    ("key" = "key" ∨ "key" = "type") ∧
    (((none : Option PyText) = none →
      demoTool.call silentExec "key" none none =
        ([], Except.error (ToolErr.textRequired "key"))) ∧
    (∀ t, (none : Option PyText) = some t → (none : Option PyCoord).isSome →
      demoTool.call silentExec "key" none none =
        ([], Except.error (ToolErr.coordinateNotAccepted "key"))) ∧
    ((none : Option PyText) = some PyText.pnonstr → (none : Option PyCoord) = none →
      demoTool.call silentExec "key" none none =
        ([], Except.error ToolErr.textNotString)) ∧
    (∀ s, (none : Option PyText) = some (PyText.pstr s) → (none : Option PyCoord) = none →
      ∃ r, (demoTool.call silentExec "key" none none).2 = Except.ok r)) :=
  ⟨Or.inl rfl,
   key_type_validation demoTool silentExec "key" none none (Or.inl rfl)⟩

/-- The argument shape §4.2 accepts for MouseMove/Drag, stated from the
spec's words: no text, and a coordinate that is a list of exactly two
non-negative integers. -/
def specValidMoveArgs (text : Option PyText) (coordinate : Option PyCoord) : Bool :=
  match text, coordinate with
  | none, some (PyCoord.plist [PyVal.vint a, PyVal.vint b]) =>
    decide (0 ≤ a) && decide (0 ≤ b)
  | _, _ => false

/-- C5: for `mouse_move` and `left_click_drag`, every valid-shape argument set
(coordinate list of two non-negative integers, no text) passes argument
validation — any failure is then only the out-of-bounds check, never an
InvalidArgument — while every other shape fails with an InvalidArgument
error and an empty capability trace (rejected before any side effect). -/
theorem move_drag_validation (self : ComputerTool) (exec : String → String × String)
    (action : String) (text : Option PyText) (coordinate : Option PyCoord)
    (ha : action = "mouse_move" ∨ action = "left_click_drag") :
    (specValidMoveArgs text coordinate = true →
      ∀ e, (self.call exec action text coordinate).2 = Except.error e →
        e.isInvalidArgument = false) ∧
    (specValidMoveArgs text coordinate = false →
      ∃ e, self.call exec action text coordinate = ([], Except.error e) ∧
        e.isInvalidArgument = true) := by
  have hif : action = "mouse_move" ∨ action = "left_click_drag" := ha
  rcases text with _ | t
  · rcases coordinate with _ | c
    · constructor
      · intro hgood
        simp [specValidMoveArgs] at hgood
      · intro _
        exact ⟨ToolErr.coordinateRequired action, by simp [ComputerTool.call, hif], rfl⟩
    · rcases c with elems | _
      · rcases elems with _ | ⟨e1, _ | ⟨e2, _ | ⟨e3, rest⟩⟩⟩
        · constructor
          · intro hgood
            simp [specValidMoveArgs] at hgood
          · intro _
            exact ⟨ToolErr.coordinateNotPair, by simp [ComputerTool.call, hif], rfl⟩
        · constructor
          · intro hgood
            simp [specValidMoveArgs] at hgood
          · intro _
            exact ⟨ToolErr.coordinateNotPair, by simp [ComputerTool.call, hif], rfl⟩
        · rcases e1 with a | _
          · rcases e2 with b | _
            · by_cases ha0 : (0 : Int) ≤ a
              · by_cases hb0 : (0 : Int) ≤ b
                · constructor
                  · intro _ e he
                    by_cases hoob : MAC_SCALED_RES_WIDTH < a ∨ MAC_SCALED_RES_HEIGHT < b
                    · simp [ComputerTool.call, hif, ComputerTool.scale_coordinates,
                        hoob, ha0, hb0, PyVal.isNonnegInt, PyVal.intVal] at he
                      subst he
                      rfl
                    · rcases ha with hmv | hdrag
                      · subst hmv
                        simp [ComputerTool.call, ComputerTool.shell,
                          ComputerTool.scale_coordinates, hoob, ha0, hb0,
                          PyVal.isNonnegInt, PyVal.intVal] at he
                      · subst hdrag
                        simp [ComputerTool.call, ComputerTool.shell,
                          ComputerTool.scale_coordinates, hoob, ha0, hb0,
                          PyVal.isNonnegInt, PyVal.intVal] at he
                  · intro hbad
                    simp [specValidMoveArgs, ha0, hb0] at hbad
                · constructor
                  · intro hgood
                    simp [specValidMoveArgs, hb0] at hgood
                  · intro _
                    refine ⟨ToolErr.coordinateNotNonnegInts, ?_, rfl⟩
                    simp [ComputerTool.call, hif, PyVal.isNonnegInt, hb0]
              · constructor
                · intro hgood
                  simp [specValidMoveArgs, ha0] at hgood
                · intro _
                  refine ⟨ToolErr.coordinateNotNonnegInts, ?_, rfl⟩
                  simp [ComputerTool.call, hif, PyVal.isNonnegInt, ha0]
            · constructor
              · intro hgood
                simp [specValidMoveArgs] at hgood
              · intro _
                refine ⟨ToolErr.coordinateNotNonnegInts, ?_, rfl⟩
                simp [ComputerTool.call, hif, PyVal.isNonnegInt]
          · constructor
            · intro hgood
              simp [specValidMoveArgs] at hgood
            · intro _
              refine ⟨ToolErr.coordinateNotNonnegInts, ?_, rfl⟩
              simp [ComputerTool.call, hif, PyVal.isNonnegInt]
        · have hlen : (e1 :: e2 :: e3 :: rest).length ≠ 2 := by
            simp only [List.length_cons]
            omega
          constructor
          · intro hgood
            simp [specValidMoveArgs] at hgood
          · intro _
            exact ⟨ToolErr.coordinateNotPair, by simp [ComputerTool.call, hif, hlen], rfl⟩
      · constructor
        · intro hgood
          simp [specValidMoveArgs] at hgood
        · intro _
          exact ⟨ToolErr.coordinateNotPair, by simp [ComputerTool.call, hif], rfl⟩
  · rcases coordinate with _ | c
    · constructor
      · intro hgood
        simp [specValidMoveArgs] at hgood
      · intro _
        exact ⟨ToolErr.coordinateRequired action, by simp [ComputerTool.call, hif], rfl⟩
    · constructor
      · intro hgood
        simp [specValidMoveArgs] at hgood
      · intro _
        exact ⟨ToolErr.textNotAccepted action, by simp [ComputerTool.call, hif], rfl⟩

/-- Witness for C5: the characterization applied to `mouse_move` with the
valid coordinate [512, 384] and no text. -/
theorem move_drag_validation_witness :
    ("mouse_move" = "mouse_move" ∨ "mouse_move" = "left_click_drag") ∧
    ((specValidMoveArgs none (some (PyCoord.plist [PyVal.vint 512, PyVal.vint 384])) = true →
      ∀ e, (demoTool.call silentExec "mouse_move" none
          (some (PyCoord.plist [PyVal.vint 512, PyVal.vint 384]))).2 = Except.error e →
        e.isInvalidArgument = false) ∧
    (specValidMoveArgs none (some (PyCoord.plist [PyVal.vint 512, PyVal.vint 384])) = false →
      ∃ e, demoTool.call silentExec "mouse_move" none
          (some (PyCoord.plist [PyVal.vint 512, PyVal.vint 384])) =
          ([], Except.error e) ∧ e.isInvalidArgument = true)) :=
  ⟨Or.inl rfl,
   move_drag_validation demoTool silentExec "mouse_move" none
     (some (PyCoord.plist [PyVal.vint 512, PyVal.vint 384])) (Or.inl rfl)⟩

/-- Counterexample to C10: a `left_click_drag` captures a screenshot after
each of its three shell sub-steps, not only after the final release.  The
trace contains a capture immediately after the press-and-hold (index 1) and
three captures in total. -/
theorem drag_screenshot_after_each_step :
    (demoTool.call silentExec "left_click_drag" none
        (some (PyCoord.plist [PyVal.vint 512, PyVal.vint 384]))).1 =
      [Cap.run "cliclick dd:.", Cap.capture,
       Cap.run "cliclick m:864,648", Cap.capture,
       Cap.run "cliclick du:.", Cap.capture] ∧
    (demoTool.call silentExec "left_click_drag" none
        (some (PyCoord.plist [PyVal.vint 512, PyVal.vint 384]))).1.get? 1 =
      some Cap.capture ∧
    (demoTool.call silentExec "left_click_drag" none
        (some (PyCoord.plist [PyVal.vint 512, PyVal.vint 384]))).1.count Cap.capture = 3 := by
  have hfmt : ("cliclick m:" ++ toString (864 : Int) ++ "," ++ toString (648 : Int)) =
      "cliclick m:864,648" := by decide
  have htr : (demoTool.call silentExec "left_click_drag" none
      (some (PyCoord.plist [PyVal.vint 512, PyVal.vint 384]))).1 =
      [Cap.run "cliclick dd:.", Cap.capture,
       Cap.run "cliclick m:864,648", Cap.capture,
       Cap.run "cliclick du:.", Cap.capture] := by
    simp [ComputerTool.call, ComputerTool.shell, demo_scale_api_512_384, hfmt,
      PyVal.isNonnegInt, PyVal.intVal]
  refine ⟨htr, ?_, ?_⟩
  · rw [htr]
    decide
  · rw [htr]
    decide

/-- C10 amended: `left_click_drag` performs exactly three sequential shell
calls — press-and-hold, move to the scaled target, release — and each of the
three is followed by a screenshot capture (so three captures, not a single
one after the release); the returned result is the one of the final release,
carrying its screenshot. -/
theorem drag_three_shell_calls (self : ComputerTool) (exec : String → String × String)
    (a b : Int) (ha0 : 0 ≤ a) (hb0 : 0 ≤ b)
    (hx : a ≤ MAC_SCALED_RES_WIDTH) (hy : b ≤ MAC_SCALED_RES_HEIGHT) :
    ∃ x y : Int,
      self.scale_coordinates ScalingSource.API a b = Except.ok (x, y) ∧
      self.call exec "left_click_drag" none
          (some (PyCoord.plist [PyVal.vint a, PyVal.vint b])) =
        ([Cap.run "cliclick dd:.", Cap.capture,
          Cap.run ("cliclick m:" ++ toString x ++ "," ++ toString y), Cap.capture,
          Cap.run "cliclick du:.", Cap.capture],
         Except.ok (ToolResult.mk (some (exec "cliclick du:.").1)
           (some (exec "cliclick du:.").2) true)) := by
  have hcond : ¬ (MAC_SCALED_RES_WIDTH < a ∨ MAC_SCALED_RES_HEIGHT < b) := by
    rw [not_or]
    exact ⟨not_lt.mpr hx, not_lt.mpr hy⟩
  refine ⟨pyRound ((a : ℚ) / ((MAC_SCALED_RES_WIDTH : ℚ) / (self.width : ℚ))),
    pyRound ((b : ℚ) / ((MAC_SCALED_RES_HEIGHT : ℚ) / (self.height : ℚ))), ?_, ?_⟩
  · simp [ComputerTool.scale_coordinates, hcond]
  · simp [ComputerTool.call, ComputerTool.shell, ComputerTool.scale_coordinates,
      hcond, ha0, hb0, PyVal.isNonnegInt, PyVal.intVal]

/-- Witness for C10 amended: the drag to (512, 384) on the 1728×1117 host. -/
theorem drag_three_shell_calls_witness :
    ((0 : Int) ≤ 512 ∧ (0 : Int) ≤ 384 ∧
     (512 : Int) ≤ MAC_SCALED_RES_WIDTH ∧ (384 : Int) ≤ MAC_SCALED_RES_HEIGHT) ∧
    ∃ x y : Int,
      demoTool.scale_coordinates ScalingSource.API 512 384 = Except.ok (x, y) ∧
      demoTool.call silentExec "left_click_drag" none
          (some (PyCoord.plist [PyVal.vint 512, PyVal.vint 384])) =
        ([Cap.run "cliclick dd:.", Cap.capture,
          Cap.run ("cliclick m:" ++ toString x ++ "," ++ toString y), Cap.capture,
          Cap.run "cliclick du:.", Cap.capture],
         Except.ok (ToolResult.mk (some (silentExec "cliclick du:.").1)
           (some (silentExec "cliclick du:.").2) true)) :=
  ⟨⟨by decide, by decide, by decide, by decide⟩,
   drag_three_shell_calls demoTool silentExec 512 384
     (by decide) (by decide) (by decide) (by decide)⟩
